import Mathlib

set_option maxRecDepth 8000

/-!
Shallow embedding of the streaming annotation engine of the DeepSeek-OCR
client (renderer script): the token parser `parseBoxesFromTokens`, the text
extractor `extractTextFromTokens`, the incremental overlay renderer
`renderBoxes`, and the polling flow of `performOCR`.  Strings are modelled as
`List Char` (the inputs of interest are ASCII, so JavaScript code-unit
indices coincide with character indices), JavaScript numbers as `ℚ`, and the
fallible `parseFloat` as `Option ℚ` with `none` standing for `NaN`.
-/

/-! JavaScript string built-ins used by the source. -/

/-- Whitespace recognised by JavaScript `String.prototype.trim`. -/
def isJsSpace (c : Char) : Bool :=
  c = ' ' || c = '\t' || c = '\n' || c = '\r' ||
  c.val = 11 || c.val = 12 || c.val = 0xA0 || c.val = 0x1680 ||
  (0x2000 ≤ c.val && c.val ≤ 0x200A) ||
  c.val = 0x2028 || c.val = 0x2029 || c.val = 0x202F || c.val = 0x205F ||
  c.val = 0x3000 || c.val = 0xFEFF

/-- Model of JavaScript `s.trim()`: drop whitespace from both ends. -/
def jsTrim (s : List Char) : List Char :=
  ((s.dropWhile isJsSpace).reverse.dropWhile isJsSpace).reverse

/-- Model of JavaScript `s.split(sep)` for a one-character separator:
`"".split(',') = [""]`, and consecutive separators yield empty pieces. -/
def jsSplit (sep : Char) : List Char → List (List Char)
  | [] => [[]]
  | c :: rest =>
    if c = sep then [] :: jsSplit sep rest
    else
      match jsSplit sep rest with
      | t :: ts => (c :: t) :: ts
      | [] => [[c]]

/-- Value of a list of decimal digit characters. -/
def digitsToNat (ds : List Char) : Nat :=
  ds.foldl (fun acc c => acc * 10 + (c.toNat - '0'.toNat)) 0

/-- Ten to an integer power, as a rational. -/
def pow10 (e : Int) : ℚ :=
  if 0 ≤ e then (10 : ℚ) ^ e.toNat else 1 / (10 : ℚ) ^ (-e).toNat

/-- Model of JavaScript `parseFloat` on an already-trimmed token: an optional
sign, then decimal digits with an optional fractional part (at least one
digit in total), then an optional exponent part that is included only when
well formed; the longest valid prefix is converted and trailing garbage is
ignored, exactly as `parseFloat` does.  `none` models `NaN` (no valid
numeric prefix).  The `Infinity` production of `parseFloat` has no image in
`ℚ` and is likewise mapped to `none`; no coordinate payload of the OCR
backend uses it. -/
def jsParseFloat (s : List Char) : Option ℚ :=
  let (sgn, r1) : ℚ × List Char :=
    match s with
    | '+' :: r => (1, r)
    | '-' :: r => (-1, r)
    | r => (1, r)
  let intPart := r1.takeWhile Char.isDigit
  let r2 := r1.dropWhile Char.isDigit
  let (fracPart, r3) : List Char × List Char :=
    match r2 with
    | '.' :: r => (r.takeWhile Char.isDigit, r.dropWhile Char.isDigit)
    | r => ([], r)
  if intPart.isEmpty && fracPart.isEmpty then none
  else
    let mant : ℚ :=
      sgn * ((digitsToNat intPart : ℚ) +
             (digitsToNat fracPart : ℚ) / (10 : ℚ) ^ fracPart.length)
    let expVal : Int :=
      match r3 with
      | 'e' :: r | 'E' :: r =>
        let (es, r4) : Int × List Char :=
          match r with
          | '+' :: r4 => (1, r4)
          | '-' :: r4 => (-1, r4)
          | r4 => (1, r4)
        let expDigits := r4.takeWhile Char.isDigit
        if expDigits.isEmpty then 0 else es * digitsToNat expDigits
      | _ => 0
    some (mant * pow10 expVal)

/-- Model of JavaScript `s.substring(a, b)` for `a ≤ b` in range: the
characters with indices in `[a, b)`. -/
def sliceIdx (s : List Char) (a b : Nat) : List Char :=
  (s.take b).drop a

/-! Constants of the renderer script (source lines 51-66). -/

/-- `DEEPSEEK_COORD_MAX = 999` (line 51). -/
def DEEPSEEK_COORD_MAX : ℚ := 999

/-- `KNOWN_TYPES` (line 53). -/
def KNOWN_TYPES : List (List Char) :=
  ["title", "sub_title", "text", "table", "image", "image_caption",
   "figure", "caption", "formula", "list"].map String.toList

/-- `TYPE_COLORS` (lines 55-66), as an association list. -/
def TYPE_COLORS : List (List Char × List Char) :=
  [("title", "#8B5CF6"), ("sub_title", "#A78BFA"), ("text", "#3B82F6"),
   ("table", "#F59E0B"), ("image", "#EC4899"), ("figure", "#06B6D4"),
   ("caption", "#10B981"), ("image_caption", "#4EC483"),
   ("formula", "#EF4444"), ("list", "#6366F1")].map
    (fun p => (p.1.toList, p.2.toList))

/-- Property access `TYPE_COLORS[t]` (lines 529-530, 387-388). -/
def lookupColor (t : List Char) : Option (List Char) :=
  List.lookup t TYPE_COLORS

/-- The `'ocr'` prompt-type string. -/
def ocrStr : List Char := "ocr".toList

/-- The `'document'` prompt-type string. -/
def documentStr : List Char := "document".toList

/-! The regex scan of `parseBoxesFromTokens` (lines 435-447).  The pattern is
`<\|ref\|>([^<]+)<\|\/ref\|><\|det\|>\[\[([^\]]+)\]\]<\|\/det\|>` with the
`g` flag.  Both repeated character classes exclude the first character of the
literal that follows them (`[^<]+` is followed by `<`, `[^\]]+` by `]`), so
backtracking can never produce a match that greedy maximal munch misses:
matching at a given start position is deterministic, and the global scan
finds successive leftmost matches, resuming after each match's end. -/

/-- Match a literal at the head of the input, returning the rest. -/
def takeLit : List Char → List Char → Option (List Char)
  | [], s => some s
  | _, [] => none
  | l :: ls, c :: cs => if c = l then takeLit ls cs else none

/-- One parser match: trimmed label, raw coordinate text, and the match's
start and end indices in the scanned string (fields of the objects pushed at
lines 441-446). -/
structure RefDetMatch where
  content : List Char
  coords : List Char
  matchStart : Nat
  matchEnd : Nat
deriving DecidableEq, Repr

/-- Try the marker pattern at the head of `s`: the opening reference marker,
a maximal nonempty run of non-`<` characters (group 1), the closing
reference marker, opening detection marker and `[[`, a maximal nonempty run
of non-`]` characters (group 2), then `]]` and the closing detection marker.
Returns the two groups and the rest of the input after the match. -/
def matchRefDet (s : List Char) : Option (List Char × List Char × List Char) := do
  let r1 ← takeLit "<|ref|>".toList s
  let label := r1.takeWhile (· ≠ '<')
  if label.isEmpty then none
  else
    let r2 := r1.dropWhile (· ≠ '<')
    let r3 ← takeLit "<|/ref|><|det|>[[".toList r2
    let coords := r3.takeWhile (· ≠ ']')
    if coords.isEmpty then none
    else
      let r4 := r3.dropWhile (· ≠ ']')
      let r5 ← takeLit "]]<|/det|>".toList r4
      some (label, coords, r5)

/-- Global scan: at each position try the pattern; on success record the
match (label trimmed, as at line 442) and resume after its end, otherwise
advance one character.  The fuel argument only bounds the recursion; it is
initialised to the string length, which a scan can never exhaust since every
step consumes at least one character. -/
def scanAux : Nat → List Char → Nat → List RefDetMatch
  | 0, _, _ => []
  | _, [], _ => []
  | fuel + 1, s@(_ :: rest), pos =>
    match matchRefDet s with
    | some (label, coords, after) =>
      let len := s.length - after.length
      { content := jsTrim label, coords := coords,
        matchStart := pos, matchEnd := pos + len } :: scanAux fuel after (pos + len)
    | none => scanAux fuel rest (pos + 1)

/-- All matches of the marker pattern in the text, in left-to-right order
(the `while` loop at lines 440-447). -/
def scanMatches (tokenText : List Char) : List RefDetMatch :=
  scanAux tokenText.length tokenText 0

/-! The per-match processing of `parseBoxesFromTokens` (lines 450-490). -/

/-- One parsed box (the object pushed at lines 475-485). -/
structure Box where
  content : List Char
  textContent : List Char
  isType : Bool
  type : List Char
  x1 : ℚ
  y1 : ℚ
  x2 : ℚ
  y2 : ℚ
  isComplete : Bool
deriving DecidableEq, Repr, Inhabited

/-- Coordinate tokenisation of line 456:
`matchData.coords.split(',').map(s => parseFloat(s.trim())).filter(n => !isNaN(n))`. -/
def jsCoords (m : RefDetMatch) : List ℚ :=
  ((jsSplit ',' m.coords).map (fun s => jsParseFloat (jsTrim s))).filterMap id

/-- The trailing text of a match (lines 465-472): for a non-last match the
text strictly between this match's end and the next match's start, trimmed;
for the last match everything after its end, trimmed. -/
def textContentOf (tokenText : List Char) (m : RefDetMatch)
    (next : Option RefDetMatch) : List Char :=
  match next with
  | some nm => jsTrim (sliceIdx tokenText m.matchEnd nm.matchStart)
  | none => jsTrim (tokenText.drop m.matchEnd)

/-- The completion flag of a match (lines 468 and 472): for a non-last match
`textContent.length > 0`; for the last match
`isOcrComplete && textContent.length > 0`. -/
def isCompleteOf (isOcrComplete : Bool) (tc : List Char)
    (next : Option RefDetMatch) : Bool :=
  match next with
  | some _ => decide (0 < tc.length)
  | none => isOcrComplete && decide (0 < tc.length)

/-- The body of the `for` loop of `parseBoxesFromTokens` for the match `m`
whose successor in the match list is `next` (`none` exactly for the last
match): accept the match and build a box if and only if exactly 4 numeric
coordinate values remain (line 457), classifying the label against
`KNOWN_TYPES` (line 459) and defaulting the display type to `'text'` for
non-tag content (line 479). -/
def annotateMatch (tokenText : List Char) (isOcrComplete : Bool)
    (m : RefDetMatch) (next : Option RefDetMatch) : Option Box :=
  match jsCoords m with
  | [q1, q2, q3, q4] =>
    let content := m.content
    let isType : Bool := decide (content ∈ KNOWN_TYPES)
    let tc := textContentOf tokenText m next
    some { content := content, textContent := tc, isType := isType,
           type := if isType then content else "text".toList,
           x1 := q1, y1 := q2, x2 := q3, y2 := q4,
           isComplete := isCompleteOf isOcrComplete tc next }
  | _ => none

/-- Pair every element of a list with its successor (`none` for the last):
this is how the loop index `i` is used, via `matches[i + 1]` at line 467 and
the `i < matches.length - 1` test at line 465. -/
def pairWithNext {α : Type} : List α → List (α × Option α)
  | [] => []
  | [a] => [(a, none)]
  | a :: b :: rest => (a, some b) :: pairWithNext (b :: rest)

/-- `parseBoxesFromTokens(tokenText, isOcrComplete)` (lines 432-493): scan
for all marker matches, then process each in order, silently skipping
matches whose coordinate list does not have exactly 4 numeric values. -/
def parseBoxesFromTokens (tokenText : List Char) (isOcrComplete : Bool) :
    List Box :=
  (pairWithNext (scanMatches tokenText)).filterMap
    (fun p => annotateMatch tokenText isOcrComplete p.1 p.2)

/-- `extractTextFromTokens` (lines 495-502): the non-tag labels joined with
newlines; `parseBoxesFromTokens` is called with its default
`isOcrComplete = false`. -/
def extractTextFromTokens (tokenText : List Char) : List Char :=
  List.intercalate ['\n']
    (((parseBoxesFromTokens tokenText false).filter (fun b => !b.isType)).map
      (fun b => b.content))

/-! The overlay renderer `renderBoxes` (lines 504-667). -/

/-- Coordinate projection of lines 523-526:
`(value / DEEPSEEK_COORD_MAX) * targetDimension`, with no clamping. -/
def projectCoord (v dim : ℚ) : ℚ :=
  v / DEEPSEEK_COORD_MAX * dim

/-- The visual attributes of one rendered box group: projected geometry
(lines 523-526), colour and unknown-type flag (lines 529-530), label text
(line 563), and the interaction policy (lines 588-652). -/
structure VisGroup where
  scaledX1 : ℚ
  scaledY1 : ℚ
  scaledX2 : ℚ
  scaledY2 : ℚ
  color : List Char
  isUnknownType : Bool
  displayText : List Char
  isClickable : Bool
  copyText : List Char
  dimmed : Bool
deriving DecidableEq, Repr

/-- Build the visual group for one box (the `forEach` body, lines 521-663).
`isClickable`/`copyText` follow lines 588-599 exactly: in `'ocr'` mode a box
is clickable iff it is not a type label and the copied text is its content;
in `'document'` mode iff it is a type label that is complete with nonempty
text content, copying the text content; otherwise nothing is clickable and
`copyText` stays `''`.  `dimmed` is the `else if` branch of lines 644-648:
an incomplete type label in `'document'` mode that was not clickable. -/
def renderGroup (box : Box) (imageWidth imageHeight : ℚ)
    (promptType : List Char) : VisGroup :=
  let isInteractive : Bool :=
    decide (promptType = ocrStr) || decide (promptType = documentStr)
  let isClickable : Bool :=
    if promptType = ocrStr then !box.isType && isInteractive
    else if promptType = documentStr then
      box.isType && box.isComplete && decide (box.textContent ≠ []) && isInteractive
    else false
  { scaledX1 := projectCoord box.x1 imageWidth
    scaledY1 := projectCoord box.y1 imageHeight
    scaledX2 := projectCoord box.x2 imageWidth
    scaledY2 := projectCoord box.y2 imageHeight
    color := (lookupColor box.type).getD "#FF1493".toList
    isUnknownType := (lookupColor box.type).isNone
    displayText :=
      if box.isType then box.type
      else if 30 < box.content.length then box.content.take 30 ++ "...".toList
      else box.content
    isClickable := isClickable
    copyText :=
      if promptType = ocrStr then box.content
      else if promptType = documentStr then box.textContent
      else []
    dimmed :=
      !isClickable &&
        (box.isType && decide (promptType = documentStr) && !box.isComplete) }

/-- The overlay state touched by `renderBoxes`: the list of appended SVG
groups, the module-level cursor `lastBoxCount` (line 74), and whether the
`viewBox` attribute has been set (lines 510-513). -/
structure OverlayState where
  groups : List VisGroup
  lastBoxCount : Nat
  viewBoxSet : Bool
deriving DecidableEq, Repr

/-- `renderBoxes(boxes, imageWidth, imageHeight, promptType)` (lines
504-667) as a state transition: return unchanged on a falsy dimension or an
empty box list (lines 505-507); otherwise set the `viewBox` once, turn only
`boxes.slice(lastBoxCount)` into new groups appended after the existing
ones (lines 519-663), and set `lastBoxCount = boxes.length` (line 666). -/
def renderBoxes (boxes : List Box) (imageWidth imageHeight : ℚ)
    (promptType : List Char) (st : OverlayState) : OverlayState :=
  if imageWidth = 0 ∨ imageHeight = 0 ∨ boxes.length = 0 then st
  else
    let newBoxes := boxes.drop st.lastBoxCount
    { groups :=
        st.groups ++ newBoxes.map (fun b => renderGroup b imageWidth imageHeight promptType)
      lastBoxCount := boxes.length
      viewBoxSet := true }

/-- The final full re-render performed when the OCR request settles
successfully (lines 874-879): reset `lastBoxCount` to 0, clear the overlay's
children (the `viewBox` attribute is not removed), and call `renderBoxes`
on the authoritative box list. -/
def renderFull (boxes : List Box) (imageWidth imageHeight : ℚ)
    (promptType : List Char) (st : OverlayState) : OverlayState :=
  renderBoxes boxes imageWidth imageHeight promptType
    { groups := [], lastBoxCount := 0, viewBoxSet := st.viewBoxSet }

/-! The polling flow of `performOCR` (lines 774-958), as a discrete event
system.  The poll callback installed with `setInterval` at line 814 is an
`async` function: a tick issues a fetch of `/progress`, and the rest of the
callback runs later, when the response arrives.  Settling the OCR request
(lines 859-880) calls `clearInterval`, which prevents further ticks but does
not cancel a callback whose fetch is already in flight; the code performs no
generation/epoch check before applying a poll result, so such a callback
still runs its body after the final render. -/

/-- The `/progress` payload fields read by the poll callback (lines
819-843): whether `status === 'processing'`, and `raw_token_stream`. -/
structure ProgressData where
  statusProcessing : Bool
  rawTokenStream : List Char
deriving DecidableEq, Repr

/-- The client state touched by the polling flow: whether the interval
timer is still installed, the in-flight poll responses whose continuations
have not yet run, the overlay, the results panel text, and whether the OCR
request has settled. -/
structure ClientState where
  pollActive : Bool
  pending : List ProgressData
  overlay : OverlayState
  resultsText : List Char
  settled : Bool
deriving DecidableEq, Repr

/-- The body of the poll callback after its fetch resolves (lines 819-843):
if the response reports `processing` and carries a nonempty
`raw_token_stream`, parse it as still-streaming, render incrementally, and
update the results panel (extracted text in `'ocr'` mode, but only when
nonempty; the raw stream otherwise).  The body consults no epoch or settled
flag. -/
def applyPollBody (w h : ℚ) (mode : List Char) (d : ProgressData)
    (s : ClientState) : ClientState :=
  if d.statusProcessing then
    if d.rawTokenStream ≠ [] then
      let boxes := parseBoxesFromTokens d.rawTokenStream false
      let ov := renderBoxes boxes w h mode s.overlay
      let txt :=
        if mode = ocrStr then
          let e := extractTextFromTokens d.rawTokenStream
          if e ≠ [] then e else s.resultsText
        else d.rawTokenStream
      { s with overlay := ov, resultsText := txt }
    else s
  else s

/-- The success path after the OCR request resolves (lines 859-897):
`clearInterval` (no further ticks), then a full re-render from the complete
token stream when available and the image has nonzero dimensions, and the
results panel set from the final data (extracted text in `'ocr'` mode,
`result.data.result` in `'document'` mode, the raw tokens otherwise). -/
def applySettle (w h : ℚ) (mode : List Char) (rawTokens resultText : List Char)
    (s : ClientState) : ClientState :=
  let ov :=
    if rawTokens ≠ [] ∧ ¬(w = 0) ∧ ¬(h = 0) then
      renderFull (parseBoxesFromTokens rawTokens true) w h mode s.overlay
    else s.overlay
  let txt :=
    if mode = ocrStr then
      (if rawTokens ≠ [] then extractTextFromTokens rawTokens else resultText)
    else if mode = documentStr then resultText
    else (if rawTokens ≠ [] then rawTokens else resultText)
  { s with pollActive := false, settled := true, overlay := ov, resultsText := txt }

/-- Events of one OCR operation: a timer tick whose fetch will resolve with
`d` (enabled only while the interval is installed), the continuation of the
oldest in-flight poll running its body (enabled whenever one is in flight,
settled or not — the code has no guard), and the OCR request settling
successfully (once). -/
inductive OcrEvent where
  | pollTick (d : ProgressData)
  | pollResume
  | settleOk (rawTokens resultText : List Char)
deriving DecidableEq, Repr

/-- One step of the event system; `none` when the event is not enabled. -/
def ocrStep (w h : ℚ) (mode : List Char) (s : ClientState) :
    OcrEvent → Option ClientState
  | .pollTick d =>
    if s.pollActive then some { s with pending := s.pending ++ [d] } else none
  | .pollResume =>
    match s.pending with
    | [] => none
    | d :: rest => some (applyPollBody w h mode d { s with pending := rest })
  | .settleOk rawTokens resultText =>
    if s.settled then none
    else some (applySettle w h mode rawTokens resultText s)

/-- Run a sequence of events from a state; `none` if any event is not
enabled at its turn. -/
def runTrace (w h : ℚ) (mode : List Char) (s : ClientState) :
    List OcrEvent → Option ClientState
  | [] => some s
  | e :: es =>
    match ocrStep w h mode s e with
    | some s2 => runTrace w h mode s2 es
    | none => none

/-- The state at the start of an OCR operation (lines 797-800): cursor 0,
empty overlay, `viewBox` removed, timer installed. -/
def c8Init : ClientState :=
  { pollActive := true, pending := []
    overlay := { groups := [], lastBoxCount := 0, viewBoxSet := false }
    resultsText := [], settled := false }

/-- A partial token stream carrying one complete annotation, as a poll
response captured while the backend was still processing. -/
def c8StaleText : List Char :=
  "<|ref|>title<|/ref|><|det|>[[1,2,3,4]]<|/det|>A".toList

/-- The complete token stream at settlement: the stale stream extended with
a second annotation. -/
def c8FinalText : List Char :=
  ("<|ref|>title<|/ref|><|det|>[[1,2,3,4]]<|/det|>A" ++
   "<|ref|>text<|/ref|><|det|>[[5,6,7,8]]<|/det|>B").toList

/-- A trace that stops at settlement: one poll tick is issued while the
timer runs, then the OCR request resolves and the final full render is
performed — with the poll continuation still in flight. -/
def c8TracePre : List OcrEvent :=
  [.pollTick { statusProcessing := true, rawTokenStream := c8StaleText },
   .settleOk c8FinalText "FINAL".toList]

/-- The same trace continued by the in-flight poll continuation running
after settlement. -/
def c8TraceFull : List OcrEvent :=
  c8TracePre ++ [.pollResume]

/-! Repeated invocation harness and concrete inputs used by the theorems
below. -/

/-- `n` successive invocations of the parse-plus-annotate pipeline on the
same `(rawText, streamEnded)` pair.  The source function keeps no state
between calls: its only mutable parsing state, the regex's `lastIndex`, is
function-local (the regex object is created afresh at line 435), which the
embedding mirrors by always scanning from position 0. -/
def pipelineRuns (t : List Char) (c : Bool) (n : Nat) : List (List Box) :=
  (List.range n).map (fun _ => parseBoxesFromTokens t c)

/-- A concrete raw text with a single complete annotation and trailing text. -/
def c1T : List Char := "<|ref|>figure<|/ref|><|det|>[[1,2,3,4]]<|/det|>tail".toList

/-- The single match of `c1T`. -/
def c1M : RefDetMatch :=
  { content := "figure".toList, coords := "1,2,3,4".toList,
    matchStart := 0, matchEnd := 47 }

/-- A concrete raw text with two annotations and text between them. -/
def c2T : List Char :=
  ("<|ref|>title<|/ref|><|det|>[[1,2,3,4]]<|/det|>MID" ++
   "<|ref|>x<|/ref|><|det|>[[5,6,7,8]]<|/det|>").toList

/-- The first match of `c2T`. -/
def c2M0 : RefDetMatch :=
  { content := "title".toList, coords := "1,2,3,4".toList,
    matchStart := 0, matchEnd := 46 }

/-- The second match of `c2T`. -/
def c2M1 : RefDetMatch :=
  { content := "x".toList, coords := "5,6,7,8".toList,
    matchStart := 49, matchEnd := 91 }

/-- A concrete box used to exercise the renderer theorems. -/
def c4B : Box :=
  { content := "title".toList, textContent := "HELLO".toList, isType := true,
    type := "title".toList, x1 := 1, y1 := 2, x2 := 3, y2 := 4,
    isComplete := true }

/-- An overlay state at the start of an operation. -/
def c4St : OverlayState := { groups := [], lastBoxCount := 0, viewBoxSet := false }

/-- A concrete raw text whose single annotation is a known type tag. -/
def c10T : List Char := "<|ref|>table<|/ref|><|det|>[[1,2,3,4]]<|/det|>x".toList

/-! Helper lemmas. -/

theorem annotateMatch_fields {t : List Char} {c : Bool} {m : RefDetMatch}
    {next : Option RefDetMatch} {b : Box}
    (h : annotateMatch t c m next = some b) :
    b.content = m.content ∧
    b.textContent = textContentOf t m next ∧
    b.isType = decide (m.content ∈ KNOWN_TYPES) ∧
    b.type = (if m.content ∈ KNOWN_TYPES then m.content else "text".toList) ∧
    b.isComplete = isCompleteOf c (textContentOf t m next) next ∧
    jsCoords m = [b.x1, b.y1, b.x2, b.y2] := by
  unfold annotateMatch at h
  split at h
  · next q1 q2 q3 q4 heq =>
    cases h
    refine ⟨rfl, rfl, rfl, ?_, rfl, heq⟩
    by_cases hk : m.content ∈ KNOWN_TYPES <;> simp [hk]
  · exact absurd h (by simp)

theorem pairWithNext_append_last {α : Type} (xs : List α) (x : α) :
    ∃ ps, pairWithNext (xs ++ [x]) = ps ++ [(x, none)] := by
  induction xs with
  | nil => exact ⟨[], rfl⟩
  | cons a xs ih =>
    cases xs with
    | nil => exact ⟨[(a, some x)], rfl⟩
    | cons d xs2 =>
      obtain ⟨ps, hp⟩ := ih
      refine ⟨(a, some d) :: ps, ?_⟩
      calc pairWithNext ((a :: d :: xs2) ++ [x])
          = (a, some d) :: pairWithNext ((d :: xs2) ++ [x]) := rfl
        _ = (a, some d) :: (ps ++ [(x, none)]) := by rw [hp]
        _ = ((a, some d) :: ps) ++ [(x, none)] := rfl

theorem pairWithNext_mem_adj {α : Type} (xs : List α) (m nm : α) (ys : List α) :
    (m, some nm) ∈ pairWithNext (xs ++ m :: nm :: ys) := by
  induction xs with
  | nil => exact List.mem_cons_self _ _
  | cons a xs ih =>
    cases xs with
    | nil => exact List.mem_cons_of_mem _ (List.mem_cons_self _ _)
    | cons d xs2 => exact List.mem_cons_of_mem _ ih

theorem length_four_shape {l : List ℚ} (h : l.length = 4) :
    ∃ q1 q2 q3 q4, l = [q1, q2, q3, q4] := by
  rcases l with _ | ⟨a, _ | ⟨b, _ | ⟨d, _ | ⟨e, _ | ⟨f, tl⟩⟩⟩⟩⟩ <;> simp_all

theorem annotateMatch_isSome (t : List Char) (c : Bool) (m : RefDetMatch)
    (next : Option RefDetMatch) :
    (annotateMatch t c m next).isSome = true ↔ (jsCoords m).length = 4 := by
  unfold annotateMatch
  rcases hl : jsCoords m with _ | ⟨a, _ | ⟨b, _ | ⟨d, _ | ⟨e, _ | ⟨f, tl⟩⟩⟩⟩⟩ <;>
    simp_all

theorem known_types_colored : ∀ s ∈ KNOWN_TYPES, (lookupColor s).isSome = true := by
  decide

theorem text_colored : (lookupColor "text".toList).isSome = true := by decide

theorem renderBoxes_groups_extend (boxes : List Box) (w h : ℚ)
    (mode : List Char) (st : OverlayState) :
    ∃ tl, (renderBoxes boxes w h mode st).groups = st.groups ++ tl := by
  unfold renderBoxes
  split
  · exact ⟨[], (List.append_nil _).symm⟩
  · exact ⟨_, rfl⟩

/-- C9 counterexample: on the exact input string the claim names, with the
`<ref>`/`<det>` marker spellings, the parser finds no match at all (the
source's markers are `<|ref|>`/`<|det|>`, line 435), so the pipeline yields
zero annotations rather than exactly one, for both values of the
stream-ended flag. -/
theorem c9_counterexample :
    parseBoxesFromTokens "<ref>title</ref><det>[[0,0,100,50]]</det>Hello".toList false = []
    ∧ parseBoxesFromTokens "<ref>title</ref><det>[[0,0,100,50]]</det>Hello".toList true = []
    ∧ (parseBoxesFromTokens "<ref>title</ref><det>[[0,0,100,50]]</det>Hello".toList false).length ≠ 1 := by
  refine ⟨by decide, by decide, by decide⟩

/-- C9 amended: with the marker spellings the source actually matches,
`"<|ref|>title<|/ref|><|det|>[[0,0,100,50]]<|/det|>Hello"` parsed with
`streamEnded = false` yields exactly one annotation with `isFinal = false`,
and the identical text with `streamEnded = true` yields one annotation with
`isFinal = true` and trailing text `"Hello"`. -/
theorem c9_amended_marker_finality :
    (parseBoxesFromTokens
        "<|ref|>title<|/ref|><|det|>[[0,0,100,50]]<|/det|>Hello".toList false).length = 1
    ∧ (parseBoxesFromTokens
        "<|ref|>title<|/ref|><|det|>[[0,0,100,50]]<|/det|>Hello".toList false).map
        (fun b => b.isComplete) = [false]
    ∧ (parseBoxesFromTokens
        "<|ref|>title<|/ref|><|det|>[[0,0,100,50]]<|/det|>Hello".toList true).map
        (fun b => (b.isComplete, b.textContent)) = [(true, "Hello".toList)] := by
  refine ⟨by decide, by decide, by decide⟩

/-- C7: the parse-plus-annotate pipeline is a pure function of
`(rawText, streamEnded)`: two successive invocations (modelled by
`pipelineRuns`, whose doc comment explains why the source has no cross-call
state) return identical annotation lists. -/
theorem c7_pipeline_deterministic (t : List Char) (c : Bool) :
    pipelineRuns t c 2 = [parseBoxesFromTokens t c, parseBoxesFromTokens t c]
    ∧ List.Pairwise (fun o1 o2 => o1 = o2) (pipelineRuns t c 2) := by
  constructor
  · rfl
  · show List.Pairwise _ [parseBoxesFromTokens t c, parseBoxesFromTokens t c]
    constructor
    · intro o ho
      simp only [List.mem_singleton] at ho
      rw [ho]
    · exact List.pairwise_singleton _ _

/-- C8, divergence between the claim and the code: the code performs no
per-operation generation/epoch check, so a poll callback whose fetch was
issued before settlement and whose continuation runs after it still mutates
the overlay state and the results panel.  In the trace below one poll tick
is issued, the OCR request then settles and performs the final full render
(two boxes drawn, cursor 2, final result text shown); the in-flight poll
continuation then runs and, with no epoch guard, overwrites the results
panel with the stale partial stream and lowers the render cursor to the
stale box count — the final render was not the last write. -/
theorem c8_stale_poll_mutates_after_settle :
    (runTrace 1 1 documentStr c8Init c8TracePre).map
        (fun s => (s.overlay.lastBoxCount, s.settled, s.resultsText)) =
      some (2, true, "FINAL".toList)
    ∧ (runTrace 1 1 documentStr c8Init c8TraceFull).map
        (fun s => (s.overlay.lastBoxCount, s.settled, s.resultsText)) =
      some (1, true, c8StaleText)
    ∧ c8StaleText ≠ "FINAL".toList := by
  refine ⟨by decide, by decide, by decide⟩

/-- C4 counterexample: on an empty annotation list (with nonzero dimensions)
the renderer returns without touching the cursor, so the cursor is not set
to the annotation list's length as the claim states for every list and
cursor value: from cursor 5 and an empty list it stays 5, not 0. -/
theorem c4_counterexample :
    (renderBoxes ([] : List Box) 1 1 documentStr
        { groups := [], lastBoxCount := 5, viewBoxSet := true }).lastBoxCount ≠
      ([] : List Box).length := by
  decide

/-- C4 as amended: when both target dimensions are nonzero and the
annotation list is nonempty, `renderBoxes` appends exactly one visual group
per annotation at index ≥ the cursor, leaves the existing groups untouched,
and sets the cursor to the list's length; when a dimension is zero or the
list is empty the call leaves the overlay state unchanged (in particular the
cursor keeps its old value).  Consequently a single call, and any sequence
of incremental calls, only ever appends after the existing groups — no index
below the previous cursor is redrawn — and the final full re-render leaves
exactly one drawn group per annotation of the final list. -/
theorem c4_amended_incremental_render (boxes : List Box) (w h : ℚ)
    (mode : List Char) (st : OverlayState) :
    (w ≠ 0 → h ≠ 0 → boxes ≠ [] →
      renderBoxes boxes w h mode st =
        { groups := st.groups ++ (boxes.drop st.lastBoxCount).map
            (fun b => renderGroup b w h mode)
          lastBoxCount := boxes.length
          viewBoxSet := true })
    ∧ ((w = 0 ∨ h = 0 ∨ boxes = []) → renderBoxes boxes w h mode st = st)
    ∧ (∃ tl, (renderBoxes boxes w h mode st).groups = st.groups ++ tl)
    ∧ (∀ snaps : List (List Box), ∃ tl,
        (snaps.foldl (fun s bs => renderBoxes bs w h mode s) st).groups =
          st.groups ++ tl)
    ∧ (w ≠ 0 → h ≠ 0 →
        (renderFull boxes w h mode st).groups.length = boxes.length) := by
  refine ⟨?_, ?_, renderBoxes_groups_extend boxes w h mode st, ?_, ?_⟩
  · intro hw hh hb
    unfold renderBoxes
    rw [if_neg]
    push_neg
    exact ⟨hw, hh, fun hlen => hb (List.length_eq_zero.mp hlen)⟩
  · intro hz
    unfold renderBoxes
    rw [if_pos]
    rcases hz with h1 | h2 | h3
    · exact Or.inl h1
    · exact Or.inr (Or.inl h2)
    · exact Or.inr (Or.inr (by rw [h3]; rfl))
  · intro snaps
    induction snaps generalizing st with
    | nil => exact ⟨[], (List.append_nil _).symm⟩
    | cons bs rest ih =>
      obtain ⟨tl1, h1⟩ := renderBoxes_groups_extend bs w h mode st
      obtain ⟨tl2, h2⟩ := ih (renderBoxes bs w h mode st)
      refine ⟨tl1 ++ tl2, ?_⟩
      rw [List.foldl_cons, h2, h1, List.append_assoc]
  · intro hw hh
    unfold renderFull renderBoxes
    split
    · next hz =>
      rcases hz with h1 | h2 | h3
      · exact absurd h1 hw
      · exact absurd h2 hh
      · simp [List.length_eq_zero.mp h3]
    · simp

/-- C3: for every matched marker pair, the coordinate string is split on
commas, each token trimmed and parsed as a float with non-numeric tokens
dropped (`jsCoords`), and the match yields an annotation record if and only
if exactly 4 numeric values remain, the four becoming the box's
coordinates; a dropped match contributes nothing to the output while every
other match is processed unaffected (the drop is silent and non-fatal). -/
theorem c3_coordinate_acceptance (t : List Char) (c : Bool) (m : RefDetMatch)
    (next : Option RefDetMatch) :
    ((annotateMatch t c m next).isSome = true ↔ (jsCoords m).length = 4)
    ∧ ((jsCoords m).length = 4 →
        ∃ q1 q2 q3 q4, jsCoords m = [q1, q2, q3, q4] ∧
          (annotateMatch t c m next).map (fun b => (b.x1, b.y1, b.x2, b.y2)) =
            some (q1, q2, q3, q4))
    ∧ (∀ ps qs : List (RefDetMatch × Option RefDetMatch),
        (ps ++ (m, next) :: qs).filterMap (fun p => annotateMatch t c p.1 p.2) =
          ps.filterMap (fun p => annotateMatch t c p.1 p.2) ++
            ((annotateMatch t c m next).toList ++
              qs.filterMap (fun p => annotateMatch t c p.1 p.2))) := by
  refine ⟨annotateMatch_isSome t c m next, ?_, ?_⟩
  · intro hlen
    obtain ⟨q1, q2, q3, q4, hl⟩ := length_four_shape hlen
    exact ⟨q1, q2, q3, q4, hl, by simp [annotateMatch, hl]⟩
  · intro ps qs
    cases hfa : annotateMatch t c m next <;>
      simp [List.filterMap_append, List.filterMap_cons, hfa]

/-- C5: interaction policy of the rendered groups (lines 588-652).  In
`'ocr'` (plain-text) mode a group is clickable iff its box is not a type
label, and the copied text is the box's label; in `'document'` mode a group
is clickable iff its box is a type label that is final with nonempty
trailing text, the copied text is the trailing text, and a non-final type
label is rendered dimmed; in every other mode nothing is clickable or
dimmed and no copy text is attached. -/
theorem c5_click_policy (b : Box) (w h : ℚ) (mode : List Char) :
    (mode = ocrStr →
      ((renderGroup b w h mode).isClickable = true ↔ b.isType = false)
      ∧ (renderGroup b w h mode).copyText = b.content
      ∧ (renderGroup b w h mode).dimmed = false)
    ∧ (mode = documentStr →
      ((renderGroup b w h mode).isClickable = true ↔
        (b.isType = true ∧ b.isComplete = true ∧ b.textContent ≠ []))
      ∧ (renderGroup b w h mode).copyText = b.textContent
      ∧ ((renderGroup b w h mode).dimmed = true ↔
          (b.isType = true ∧ b.isComplete = false)))
    ∧ (mode ≠ ocrStr → mode ≠ documentStr →
      (renderGroup b w h mode).isClickable = false
      ∧ (renderGroup b w h mode).dimmed = false
      ∧ (renderGroup b w h mode).copyText = []) := by
  refine ⟨?_, ?_, ?_⟩
  · rintro rfl
    cases hbt : b.isType <;>
      simp +decide [renderGroup, hbt, ocrStr, documentStr]
  · rintro rfl
    cases hbt : b.isType <;> cases hbc : b.isComplete <;>
      simp +decide [renderGroup, hbt, hbc, ocrStr, documentStr]
  · intro h1 h2
    simp [renderGroup, h1, h2]

/-- C6: coordinate projection is `(v / COORD_MAX) * dimension` with no
clamping — a normalized value above `COORD_MAX` projects beyond the target
dimension and a negative one projects below zero — and it is linear in the
target dimensions: doubling both dimensions doubles all four projected
values of every rendered box. -/
theorem c6_projection_linearity (v d w h : ℚ) (b : Box) (mode : List Char) :
    projectCoord v d = v / DEEPSEEK_COORD_MAX * d
    ∧ (0 < d → DEEPSEEK_COORD_MAX < v → d < projectCoord v d)
    ∧ (0 < d → v < 0 → projectCoord v d < 0)
    ∧ (renderGroup b (2 * w) (2 * h) mode).scaledX1 =
        2 * (renderGroup b w h mode).scaledX1
    ∧ (renderGroup b (2 * w) (2 * h) mode).scaledY1 =
        2 * (renderGroup b w h mode).scaledY1
    ∧ (renderGroup b (2 * w) (2 * h) mode).scaledX2 =
        2 * (renderGroup b w h mode).scaledX2
    ∧ (renderGroup b (2 * w) (2 * h) mode).scaledY2 =
        2 * (renderGroup b w h mode).scaledY2 := by
  refine ⟨rfl, ?_, ?_, ?_, ?_, ?_, ?_⟩
  · intro hd hv
    unfold projectCoord DEEPSEEK_COORD_MAX at *
    have h1 : (1 : ℚ) < v / 999 := (one_lt_div (by norm_num)).mpr hv
    calc d = 1 * d := (one_mul d).symm
      _ < v / 999 * d := mul_lt_mul_of_pos_right h1 hd
  · intro hd hv
    unfold projectCoord DEEPSEEK_COORD_MAX
    exact mul_neg_of_neg_of_pos (div_neg_of_neg_of_pos hv (by norm_num)) hd
  all_goals
    show projectCoord _ (2 * _) = 2 * projectCoord _ _
    unfold projectCoord
    ring

/-- C1: for the last match of the scan, when it is accepted, the resulting
annotation's trailing text is the raw text from the match's end to the end
of the string, trimmed, and its final flag is true iff the stream-ended
flag is true and that trimmed text is nonempty; in particular the
annotation of the last match is never final while the stream is open, nor
when the stream has ended but the trailing text is empty; and that
annotation is the last element of the pipeline's output. -/
theorem c1_last_match_finality (t : List Char) (c : Bool)
    (ms0 : List RefDetMatch) (m : RefDetMatch)
    (hscan : scanMatches t = ms0 ++ [m])
    (hsome : (annotateMatch t c m none).isSome = true) :
    (annotateMatch t c m none).map Box.textContent =
      some (jsTrim (t.drop m.matchEnd))
    ∧ ((annotateMatch t c m none).map Box.isComplete = some true ↔
        (c = true ∧ jsTrim (t.drop m.matchEnd) ≠ []))
    ∧ (c = false →
        (annotateMatch t c m none).map Box.isComplete = some false)
    ∧ (jsTrim (t.drop m.matchEnd) = [] →
        (annotateMatch t c m none).map Box.isComplete = some false)
    ∧ (∃ pre b, annotateMatch t c m none = some b ∧
        parseBoxesFromTokens t c = pre ++ [b]) := by
  obtain ⟨b, hb⟩ := Option.isSome_iff_exists.mp hsome
  obtain ⟨hcont, htc, hty, hty2, hic, hco⟩ := annotateMatch_fields hb
  have htc2 : b.textContent = jsTrim (t.drop m.matchEnd) := htc
  have hic2 : b.isComplete = (c && decide (0 < (jsTrim (t.drop m.matchEnd)).length)) := by
    rw [hic, htc2.symm.trans htc]
    rfl
  refine ⟨?_, ?_, ?_, ?_, ?_⟩
  · rw [hb, Option.map_some', htc2]
  · rw [hb, Option.map_some']
    simp [hic2, List.length_pos]
  · intro hc
    rw [hb, Option.map_some', hic2, hc]
    simp
  · intro hempty
    rw [hb, Option.map_some', hic2, hempty]
    simp
  · obtain ⟨ps, hps⟩ := pairWithNext_append_last ms0 m
    refine ⟨ps.filterMap (fun p => annotateMatch t c p.1 p.2), b, hb, ?_⟩
    unfold parseBoxesFromTokens
    rw [hscan, hps, List.filterMap_append]
    simp [List.filterMap_cons, hb]

/-- C2: for a match that is not the last (it is followed by `nm` in the
scan), when it is accepted, the resulting annotation's trailing text is the
substring of the raw text strictly between this match's end and the next
match's start, trimmed, and its final flag is true iff that trimmed text is
nonempty — independently of the stream-ended flag; the annotation belongs
to the pipeline's output. -/
theorem c2_inner_match_finality (t : List Char) (c : Bool)
    (xs : List RefDetMatch) (m nm : RefDetMatch) (ys : List RefDetMatch)
    (hscan : scanMatches t = xs ++ m :: nm :: ys)
    (hsome : (annotateMatch t c m (some nm)).isSome = true) :
    (annotateMatch t c m (some nm)).map Box.textContent =
      some (jsTrim (sliceIdx t m.matchEnd nm.matchStart))
    ∧ ((annotateMatch t c m (some nm)).map Box.isComplete = some true ↔
        jsTrim (sliceIdx t m.matchEnd nm.matchStart) ≠ [])
    ∧ (∀ c2 : Bool,
        annotateMatch t c2 m (some nm) = annotateMatch t c m (some nm))
    ∧ (∃ b, annotateMatch t c m (some nm) = some b ∧
        b ∈ parseBoxesFromTokens t c) := by
  obtain ⟨b, hb⟩ := Option.isSome_iff_exists.mp hsome
  obtain ⟨hcont, htc, hty, hty2, hic, hco⟩ := annotateMatch_fields hb
  have htc2 : b.textContent = jsTrim (sliceIdx t m.matchEnd nm.matchStart) := htc
  have hic2 : b.isComplete =
      decide (0 < (jsTrim (sliceIdx t m.matchEnd nm.matchStart)).length) := by
    rw [hic, htc2.symm.trans htc]
    rfl
  refine ⟨?_, ?_, ?_, ?_⟩
  · rw [hb, Option.map_some', htc2]
  · rw [hb, Option.map_some']
    simp [hic2, List.length_pos]
  · intro c2
    unfold annotateMatch
    split <;> rfl
  · refine ⟨b, hb, ?_⟩
    unfold parseBoxesFromTokens
    exact List.mem_filterMap.mpr
      ⟨(m, some nm), by rw [hscan]; exact pairWithNext_mem_adj xs m nm ys, hb⟩

/-- C10: every annotation the parser produces has a display type with an
entry in the colour table: a type-label annotation's type is its own label,
which is a member of `KNOWN_TYPES` (all of which are keys of
`TYPE_COLORS`), and a text annotation's type defaults to `'text'` (also a
key); hence the renderer's unknown-type highlighting branch is unreachable
for parser output. -/
theorem c10_parser_types_colored (t : List Char) (c : Bool) (b : Box)
    (hb : b ∈ parseBoxesFromTokens t c) :
    (b.isType = true → b.type = b.content ∧ b.content ∈ KNOWN_TYPES)
    ∧ (b.isType = false → b.type = "text".toList)
    ∧ (lookupColor b.type).isSome = true
    ∧ (∀ w h mode, (renderGroup b w h mode).isUnknownType = false) := by
  obtain ⟨p, hp, hpa⟩ := List.mem_filterMap.mp hb
  obtain ⟨hcont, htc, hty, hty2, hic, hco⟩ := annotateMatch_fields hpa
  have hsome : (lookupColor b.type).isSome = true := by
    by_cases hk : p.1.content ∈ KNOWN_TYPES
    · rw [hty2, if_pos hk]
      exact known_types_colored _ hk
    · rw [hty2, if_neg hk]
      exact text_colored
  refine ⟨?_, ?_, hsome, ?_⟩
  · intro hbt
    rw [hty] at hbt
    have hk : p.1.content ∈ KNOWN_TYPES := of_decide_eq_true hbt
    rw [hty2, if_pos hk, hcont]
    exact ⟨rfl, hk⟩
  · intro hbt
    rw [hty] at hbt
    have hk : p.1.content ∉ KNOWN_TYPES := of_decide_eq_false hbt
    rw [hty2, if_neg hk]
  · intro w h mode
    obtain ⟨cl, hcl⟩ := Option.isSome_iff_exists.mp hsome
    show (lookupColor b.type).isNone = false
    rw [hcl]
    rfl

/-- Witness for C1 at a concrete input: the scan of `c1T` ends with `c1M`,
that match is accepted, and the theorem's conclusions hold there. -/
theorem c1_witness :
    scanMatches c1T = [] ++ [c1M]
    ∧ (annotateMatch c1T true c1M none).isSome = true
    ∧ (annotateMatch c1T true c1M none).map Box.textContent =
        some (jsTrim (c1T.drop c1M.matchEnd))
    ∧ ((annotateMatch c1T true c1M none).map Box.isComplete = some true ↔
        (true = true ∧ jsTrim (c1T.drop c1M.matchEnd) ≠ [])) := by
  have h1 : scanMatches c1T = [] ++ [c1M] := by decide
  have h2 : (annotateMatch c1T true c1M none).isSome = true := by decide
  exact ⟨h1, h2, (c1_last_match_finality c1T true [] c1M h1 h2).1,
    (c1_last_match_finality c1T true [] c1M h1 h2).2.1⟩

/-- Witness for C2 at a concrete input: the scan of `c2T` is `[c2M0, c2M1]`,
the first match is accepted, and the theorem's conclusions hold there. -/
theorem c2_witness :
    scanMatches c2T = [] ++ c2M0 :: c2M1 :: []
    ∧ (annotateMatch c2T true c2M0 (some c2M1)).isSome = true
    ∧ (annotateMatch c2T true c2M0 (some c2M1)).map Box.textContent =
        some (jsTrim (sliceIdx c2T c2M0.matchEnd c2M1.matchStart))
    ∧ ((annotateMatch c2T true c2M0 (some c2M1)).map Box.isComplete = some true ↔
        jsTrim (sliceIdx c2T c2M0.matchEnd c2M1.matchStart) ≠ []) := by
  have h1 : scanMatches c2T = [] ++ c2M0 :: c2M1 :: [] := by decide
  have h2 : (annotateMatch c2T true c2M0 (some c2M1)).isSome = true := by decide
  exact ⟨h1, h2, (c2_inner_match_finality c2T true [] c2M0 c2M1 [] h1 h2).1,
    (c2_inner_match_finality c2T true [] c2M0 c2M1 [] h1 h2).2.1⟩

/-- Witness for C10 at a concrete input: the first annotation parsed from
`c10T` has a display type with a colour entry. -/
theorem c10_witness :
    (lookupColor ((parseBoxesFromTokens c10T true).get ⟨0, by decide⟩).type).isSome = true := by
  exact (c10_parser_types_colored c10T true _ (List.get_mem _ _ _)).2.2.1
